import Mathlib

/-!
Verification of the Green Code Athens tree-planting demo backend.

The definitions below are a shallow embedding of the scoring and
location-store logic of `src/app/api/server.js` and of the fuzzy
place-name resolver of `src/app/athens-map-chat/src/App.jsx`.
JavaScript numbers are modelled as exact rationals, `Math.round` as
floor of x + 1/2 (round half toward positive infinity), and the
in-place mutation of the global `LOCATIONS` array as explicit
list-to-list state passing.
-/

namespace GreenCode

/-- Metric record of a location, mirroring the `metrics` object of
`RAW_LOCATIONS` in server.js. All values are JS numbers, modelled as ℚ. -/
structure Metrics where
  LST : ℚ
  NDVI : ℚ
  PopulationDensity : ℚ
  CCS : ℚ
  FeasibilityScore : ℚ
  AirQuality : ℚ
deriving DecidableEq

/-- A fixture record before the derived score is attached
(`RAW_LOCATIONS` entries in server.js). -/
structure RawLocation where
  id : ℕ
  name : String
  coords : ℚ × ℚ
  info : String
  metrics : Metrics
deriving DecidableEq

/-- A location record held by the server, with the derived `s_cpi`
score attached (the shape of entries of `LOCATIONS` in server.js). -/
structure Location where
  id : ℕ
  name : String
  coords : ℚ × ℚ
  info : String
  metrics : Metrics
  s_cpi : ℚ
deriving DecidableEq

/-- JavaScript `Math.round`: round half toward positive infinity. -/
def jsRound (x : ℚ) : ℤ := ⌊x + 1 / 2⌋

/-- `Math.round(x * 10) / 10`: round to one decimal digit,
half up at the tenths digit. -/
def roundTenth (x : ℚ) : ℚ := (jsRound (x * 10) : ℚ) / 10

/-- `computeSCPI` of server.js:
base = 0.4·LST + 0.3·(100 − NDVI) + 0.2·PopulationDensity + 0.1·CCS,
scaled by FeasibilityScore, rounded to one decimal and clamped to [0,100]
by `Math.max(0, Math.min(100, Math.round(s_cpi * 10) / 10))`. -/
def computeSCPI (m : Metrics) : ℚ :=
  let base :=
    0.4 * m.LST +
    0.3 * (100 - m.NDVI) +
    0.2 * m.PopulationDensity +
    0.1 * m.CCS
  let s_cpi := base * m.FeasibilityScore
  max 0 (min 100 (roundTenth s_cpi))

/-- The spec's wording of `computePriorityIndex`: the same weighted base
scaled by the feasibility score, but clamped to [0,100] first and then
rounded to one decimal. Used to compare the spec's order of clamping
and rounding against the code's. -/
def computePriorityIndexSpec (m : Metrics) : ℚ :=
  let base :=
    0.4 * m.LST +
    0.3 * (100 - m.NDVI) +
    0.2 * m.PopulationDensity +
    0.1 * m.CCS
  roundTenth (max 0 (min 100 (base * m.FeasibilityScore)))

/-- The fixture list `RAW_LOCATIONS` of server.js. -/
def RAW_LOCATIONS : List RawLocation :=
  [ { id := 1
      name := "Monastiraki"
      coords := (37.976, 23.7258)
      info := "Dense, highly built-up area with limited street tree cover."
      metrics :=
        { LST := 98, NDVI := 1, PopulationDensity := 92, CCS := 85,
          FeasibilityScore := 0.8, AirQuality := 70 } },
    { id := 2
      name := "Syntagma Square"
      coords := (37.9755, 23.7348)
      info := "Central square with heavy traffic and heat-island effects."
      metrics :=
        { LST := 82, NDVI := 20, PopulationDensity := 88, CCS := 80,
          FeasibilityScore := 0.9, AirQuality := 65 } },
    { id := 3
      name := "Panathenaic Stadium"
      coords := (37.968, 23.741)
      info := "Large open area with some potential for perimeter greening."
      metrics :=
        { LST := 75, NDVI := 45, PopulationDensity := 70, CCS := 60,
          FeasibilityScore := 0.85, AirQuality := 60 } },
    { id := 4
      name := "Acropolis of Athens"
      coords := (37.9715, 23.7267)
      info := "Historic area; limited planting but high exposure to heat."
      metrics :=
        { LST := 80, NDVI := 35, PopulationDensity := 65, CCS := 55,
          FeasibilityScore := 0.6, AirQuality := 68 } },
    { id := 5
      name := "National Garden"
      coords := (37.9732, 23.737)
      info := "Already quite green; relatively lower additional need."
      metrics :=
        { LST := 60, NDVI := 20, PopulationDensity := 50, CCS := 45,
          FeasibilityScore := 0.7, AirQuality := 55 } } ]

/-- Attach the derived score to a fixture record, as the
`RAW_LOCATIONS.map` at load time in server.js does. -/
def mkLocation (r : RawLocation) : Location :=
  { id := r.id, name := r.name, coords := r.coords, info := r.info,
    metrics := r.metrics, s_cpi := computeSCPI r.metrics }

/-- The store `LOCATIONS` of server.js right after fixture load. -/
def LOCATIONS : List Location := RAW_LOCATIONS.map mkLocation

/-- The delta chosen by the `switch (parsed.reportIntensity)` statement
of the chat handler: high → 2, medium → 1, low and every other value
(including absent, i.e. `none`) → 0.1. -/
def reportDelta (i : Option String) : ℚ :=
  if i = some "high" then 2
  else if i = some "medium" then 1
  else 0.1

/-- The cooling-score update of the chat handler:
`Math.max(0, Math.min(100, loc.metrics.CCS + delta))`. -/
def applyReportDelta (c : ℚ) (i : Option String) : ℚ :=
  max 0 (min 100 (c + reportDelta i))

/-- Apply a report to a single location record: bump `CCS` through
`applyReportDelta` and recompute `s_cpi` from the updated metrics, as the
body of the `if (loc)` block of the chat handler does. -/
def updateLocation (i : Option String) (l : Location) : Location :=
  let m := { l.metrics with CCS := applyReportDelta l.metrics.CCS i }
  { l with metrics := m, s_cpi := computeSCPI m }

/-- Replace the element at an index by the image of a function,
leaving every other element in place (the effect of the in-place
mutation of one array element). -/
def updateAt (f : Location → Location) : List Location → ℕ → List Location
  | [], _ => []
  | x :: xs, 0 => f x :: xs
  | x :: xs, n + 1 => x :: updateAt f xs n

/-- JavaScript `toLowerCase`, character by character (the place names are
ASCII, where the two coincide). -/
def lowerStr (s : String) : String := ⟨s.data.map Char.toLower⟩

/-- Resolution of a reported place name against the store, as in the chat
handler: first `LOCATIONS.find` with exact name equality, then, when that
finds nothing, `LOCATIONS.find` with case-insensitive equality. -/
def resolveReportIdx (store : List Location) (name : String) : Option ℕ :=
  match store.findIdx? (fun l => l.name == name) with
  | some i => some i
  | none => store.findIdx? (fun l => lowerStr l.name == lowerStr name)

/-- The report-update block of the chat handler as a store transformer:
resolve the name; when it resolves, bump that record's `CCS` and recompute
its `s_cpi`; otherwise leave the store unchanged. -/
def recordReport (store : List Location) (name : String) (i : Option String) :
    List Location :=
  match resolveReportIdx store name with
  | none => store
  | some idx => updateAt (updateLocation i) store idx

/-- The store invariant of the spec: every record's derived score equals
the scoring function applied to its current metrics. -/
def storeInv (store : List Location) : Prop :=
  ∀ l ∈ store, l.s_cpi = computeSCPI l.metrics

/-- Whether the character list t occurs as a leading segment of s. -/
def leadsWith : List Char → List Char → Bool
  | [], _ => true
  | _ :: _, [] => false
  | a :: as, b :: bs => a == b && leadsWith as bs

/-- Whether the character list t occurs contiguously inside s. -/
def containsSub : List Char → List Char → Bool
  | [], t => t.isEmpty
  | c :: s, t => leadsWith t (c :: s) || containsSub s t

/-- JavaScript `s.includes(t)`: substring containment. -/
def strIncludes (s t : String) : Bool := containsSub s.data t.data

/-- The matching predicate of `findLocationFromName` in App.jsx, applied
to one record: case-insensitive equality, or substring containment of the
query in the record name, or of the record name in the query. -/
def fuzzyMatches (q : String) (l : Location) : Bool :=
  lowerStr l.name == lowerStr q ||
  strIncludes (lowerStr l.name) (lowerStr q) ||
  strIncludes (lowerStr q) (lowerStr l.name)

/-- `findLocationFromName` of App.jsx: on a falsy name (absent or empty)
return null; otherwise return the first record of the list matching the
lowercased query exactly or by substring in either direction, or null
when none does. -/
def findLocationFromName (locs : List Location) (placeName : Option String) :
    Option Location :=
  match placeName with
  | none => none
  | some q => if q = "" then none else locs.find? (fuzzyMatches q)

/-- Insert a record into a list so that it lands after every element with
a strictly greater score and before every element with an equal or
smaller one. -/
def insertDesc (x : Location) : List Location → List Location
  | [] => [x]
  | y :: ys => if y.s_cpi ≤ x.s_cpi then x :: y :: ys else y :: insertDesc x ys

/-- `[...LOCATIONS].sort((a, b) => b.s_cpi - a.s_cpi)` of the
`GET /api/locations` handler. ECMAScript specifies `Array.prototype.sort`
as stable, and a stable sort for a total preorder has a unique output, so
the handler's sort is modelled by a stable insertion sort on the same
comparator. -/
def sortByCpiDesc (store : List Location) : List Location :=
  store.foldr insertDesc []

/-- The fixed fallback reply of the chat handler's catch block. -/
def FALLBACK_REPLY : String :=
  "Sorry, I couldn't reach the AI server. Please try again later."

/-- The JSON body sent back by the chat handler. `reportType = none`
models an absent field (the malformed-payload fallback body has no
reportType at all), `some s` a present string field. -/
structure ChatResponse where
  reply : String
  placeName : Option String
  reportType : Option String
  reportIntensity : Option String
deriving DecidableEq

/-- A successfully parsed structured reply from the completion service,
the shape enforced by the handler's response-format schema. -/
structure ParsedReply where
  reply : String
  placeName : Option String
  reportType : String
  reportIntensity : Option String
deriving DecidableEq

/-- Outcome of the outbound completion call as seen by the chat handler:
the call rejects, or it returns text that fails `JSON.parse`, or it
returns a parsed structured reply. -/
inductive UpstreamOutcome where
  | failure
  | malformed (raw : String)
  | parsed (p : ParsedReply)
deriving DecidableEq

/-- The `POST /api/chat` handler as a function of the store and of the
upstream outcome, returning the HTTP status, the response body, and the
store after the request. On failure the catch block answers 500 with the
fixed fallback body and the store is untouched; on a malformed payload
the raw text is echoed with a null place and no report fields; on a
parsed reply the report-update block runs exactly when the place name is
truthy and the report type is cooling_problem. -/
def chatHandler (store : List Location) :
    UpstreamOutcome → ℕ × ChatResponse × List Location
  | .failure =>
      (500, ⟨FALLBACK_REPLY, none, some "none", none⟩, store)
  | .malformed raw =>
      (200, ⟨raw, none, none, none⟩, store)
  | .parsed p =>
      let store' :=
        match p.placeName with
        | none => store
        | some name =>
            if name ≠ "" ∧ p.reportType = "cooling_problem" then
              recordReport store name p.reportIntensity
            else store
      (200, ⟨p.reply, p.placeName, some p.reportType, p.reportIntensity⟩, store')

/-- The metrics of the Monastiraki fixture, the concrete input named by
the spec's worked example. -/
def monastirakiMetrics : Metrics :=
  { LST := 98, NDVI := 1, PopulationDensity := 92, CCS := 85,
    FeasibilityScore := 0.8, AirQuality := 70 }

/-- Dummy metrics for resolver counterexamples (the resolver never reads
them). -/
def dummyMetrics : Metrics :=
  { LST := 0, NDVI := 0, PopulationDensity := 0, CCS := 0,
    FeasibilityScore := 0, AirQuality := 0 }

/-- A record named Athens, matching many queries by substring. -/
def athensLoc : Location :=
  { id := 101, name := "Athens", coords := (0, 0), info := "",
    metrics := dummyMetrics, s_cpi := 0 }

/-- A record named Acropolis of Athens. -/
def acropolisLoc : Location :=
  { id := 102, name := "Acropolis of Athens", coords := (0, 0), info := "",
    metrics := dummyMetrics, s_cpi := 0 }

/-- Rounding to one decimal is monotone. -/
lemma roundTenth_mono {x y : ℚ} (h : x ≤ y) : roundTenth x ≤ roundTenth y := by
  unfold roundTenth jsRound
  have hf : ⌊x * 10 + 1 / 2⌋ ≤ ⌊y * 10 + 1 / 2⌋ :=
    Int.floor_le_floor (by linarith)
  have h10 : (0:ℚ) < 10 := by norm_num
  exact (div_le_div_iff_of_pos_right h10).mpr (by exact_mod_cast hf)

/-- Zero is a fixed point of rounding to one decimal. -/
lemma roundTenth_zero : roundTenth 0 = 0 := by
  norm_num [roundTenth, jsRound]

/-- One hundred is a fixed point of rounding to one decimal. -/
lemma roundTenth_hundred : roundTenth 100 = 100 := by
  norm_num [roundTenth, jsRound]

/-- Every element of an updated list is an old element or the image of an
old element. -/
lemma mem_updateAt {f : Location → Location} :
    ∀ (l : List Location) (n : ℕ) (x : Location), x ∈ updateAt f l n →
      x ∈ l ∨ ∃ y ∈ l, x = f y
  | [], _, x, h => by simp [updateAt] at h
  | a :: as, 0, x, h => by
      rcases List.mem_cons.1 h with h | h
      · exact Or.inr ⟨a, List.mem_cons_self a as, h⟩
      · exact Or.inl (List.mem_cons_of_mem a h)
  | a :: as, n + 1, x, h => by
      rcases List.mem_cons.1 h with h | h
      · exact Or.inl (h ▸ List.mem_cons_self a as)
      · rcases mem_updateAt as n x h with h | ⟨y, hy, hxy⟩
        · exact Or.inl (List.mem_cons_of_mem a h)
        · exact Or.inr ⟨y, List.mem_cons_of_mem a hy, hxy⟩

/-- A successful find yields a matching element preceded only by
non-matching ones. -/
lemma find?_some_split {p : Location → Bool} :
    ∀ (l : List Location) (x : Location), l.find? p = some x →
      p x = true ∧ ∃ pre suf, l = pre ++ x :: suf ∧ ∀ y ∈ pre, p y = false
  | [], x, h => by simp at h
  | a :: as, x, h => by
      by_cases ha : p a
      · rw [List.find?_cons_of_pos as ha] at h
        cases h
        exact ⟨ha, [], as, rfl, by simp⟩
      · rw [List.find?_cons_of_neg as ha] at h
        obtain ⟨hx, pre, suf, rfl, hpre⟩ := find?_some_split as x h
        refine ⟨hx, a :: pre, suf, rfl, ?_⟩
        intro y hy
        rcases List.mem_cons.1 hy with rfl | hy
        · exact Bool.eq_false_iff.2 ha
        · exact hpre y hy

/-- Find returns the matching element after a non-matching block. -/
lemma find?_first {p : Location → Bool} (pre suf : List Location) (x : Location)
    (hpre : ∀ y ∈ pre, p y = false) (hx : p x = true) :
    (pre ++ x :: suf).find? p = some x := by
  rw [List.find?_append]
  have h1 : pre.find? p = none := by
    rw [List.find?_eq_none]
    intro y hy
    simp [hpre y hy]
  rw [h1, List.find?_cons_of_pos suf hx]
  rfl

/-- Inserting permutes with consing. -/
lemma insertDesc_perm (x : Location) :
    ∀ l : List Location, List.Perm (insertDesc x l) (x :: l)
  | [] => List.Perm.refl _
  | y :: ys => by
      unfold insertDesc
      split
      · exact List.Perm.refl _
      · exact ((insertDesc_perm x ys).cons y).trans (List.Perm.swap x y ys)

/-- Sorting permutes the store. -/
lemma sortByCpiDesc_perm :
    ∀ l : List Location, List.Perm (sortByCpiDesc l) l
  | [] => List.Perm.refl _
  | x :: xs => by
      unfold sortByCpiDesc
      simp only [List.foldr_cons]
      exact (insertDesc_perm x _).trans ((sortByCpiDesc_perm xs).cons x)

/-- Inserting into a descending list keeps it descending. -/
lemma insertDesc_pairwise (x : Location) :
    ∀ l : List Location,
      l.Pairwise (fun a b => b.s_cpi ≤ a.s_cpi) →
      (insertDesc x l).Pairwise (fun a b => b.s_cpi ≤ a.s_cpi)
  | [], _ => by simp [insertDesc]
  | y :: ys, h => by
      unfold insertDesc
      rcases List.pairwise_cons.1 h with ⟨hy, hys⟩
      split
      · rename_i hle
        refine List.pairwise_cons.2 ⟨?_, h⟩
        intro z hz
        rcases List.mem_cons.1 hz with rfl | hz
        · exact hle
        · exact le_trans (hy z hz) hle
      · rename_i hgt
        push_neg at hgt
        refine List.pairwise_cons.2 ⟨?_, insertDesc_pairwise x ys hys⟩
        intro z hz
        rcases List.mem_cons.1 ((insertDesc_perm x ys).mem_iff.1 hz) with rfl | hz
        · exact le_of_lt hgt
        · exact hy z hz

/-- The sorted store is pairwise descending in the derived score. -/
lemma sortByCpiDesc_pairwise :
    ∀ l : List Location,
      (sortByCpiDesc l).Pairwise (fun a b => b.s_cpi ≤ a.s_cpi)
  | [] => by simp [sortByCpiDesc]
  | x :: xs => by
      unfold sortByCpiDesc
      simp only [List.foldr_cons]
      exact insertDesc_pairwise x _ (sortByCpiDesc_pairwise xs)

/-- Filtering by one score value commutes with insertion: the inserted
element, when it has that score, lands in front of the equal-scored block,
and the rest keeps its relative order. -/
lemma insertDesc_filter (k : ℚ) (x : Location) :
    ∀ l : List Location,
      (insertDesc x l).filter (fun l2 => decide (l2.s_cpi = k)) =
        if x.s_cpi = k then
          x :: l.filter (fun l2 => decide (l2.s_cpi = k))
        else l.filter (fun l2 => decide (l2.s_cpi = k))
  | [] => by
      simp only [insertDesc, List.filter]
      split <;> simp_all
  | y :: ys => by
      unfold insertDesc
      split
      · rename_i hle
        by_cases hx : x.s_cpi = k <;> simp [List.filter_cons, hx]
      · rename_i hgt
        push_neg at hgt
        by_cases hx : x.s_cpi = k
        · have hy : ¬ (y.s_cpi = k) := by
            intro h
            rw [hx] at hgt
            rw [h] at hgt
            exact lt_irrefl k hgt
          simp [List.filter_cons, hx, hy, insertDesc_filter k x ys]
        · by_cases hy : y.s_cpi = k <;>
            simp [List.filter_cons, hx, hy, insertDesc_filter k x ys]

/-- Stability: the block of records carrying any given score is returned
by the sort exactly in store order. -/
lemma sortByCpiDesc_filter (k : ℚ) :
    ∀ l : List Location,
      (sortByCpiDesc l).filter (fun l2 => decide (l2.s_cpi = k)) =
        l.filter (fun l2 => decide (l2.s_cpi = k))
  | [] => rfl
  | x :: xs => by
      have hrec := sortByCpiDesc_filter k xs
      unfold sortByCpiDesc at hrec ⊢
      simp only [List.foldr_cons]
      rw [insertDesc_filter k x]
      by_cases hx : x.s_cpi = k <;>
        simp [List.filter_cons, hx, hrec]

/-- Claim C1: computeSCPI computes the weighted base
0.4·LST + 0.3·(100 − NDVI) + 0.2·PopulationDensity + 0.1·CCS, multiplies
it by FeasibilityScore, clamps to [0,100] and rounds half-up to one
decimal (in either order, the two agree), and on the Monastiraki metrics
(98, 1, 92, 85, feasibility 0.8) it returns exactly 76.6. -/
theorem computeSCPI_formula_and_example :
    (∀ m : Metrics, computeSCPI m = computePriorityIndexSpec m) ∧
    computeSCPI monastirakiMetrics = 76.6 := by
  constructor
  · intro m
    simp only [computeSCPI, computePriorityIndexSpec]
    set x := (0.4 * m.LST + 0.3 * (100 - m.NDVI) + 0.2 * m.PopulationDensity +
      0.1 * m.CCS) * m.FeasibilityScore with hx
    rcases le_total x 0 with hle | hge
    · have h1 : min 100 x = x := min_eq_right (by linarith)
      have h2 : max 0 x = 0 := max_eq_left hle
      have h3 : roundTenth x ≤ 0 := by
        have := roundTenth_mono hle
        rwa [roundTenth_zero] at this
      rw [h1, h2, roundTenth_zero,
        min_eq_right (by linarith : roundTenth x ≤ (100:ℚ)), max_eq_left h3]
    · rcases le_total x 100 with hle2 | hge2
      · have h1 : min 100 x = x := min_eq_right hle2
        have h2 : max 0 x = x := max_eq_right hge
        have h3 : (0:ℚ) ≤ roundTenth x := by
          have := roundTenth_mono hge
          rwa [roundTenth_zero] at this
        have h4 : roundTenth x ≤ 100 := by
          have := roundTenth_mono hle2
          rwa [roundTenth_hundred] at this
        rw [h1, h2, min_eq_right h4, max_eq_right h3]
      · have h1 : min 100 x = 100 := min_eq_left hge2
        have h3 : (100:ℚ) ≤ roundTenth x := by
          have := roundTenth_mono hge2
          rwa [roundTenth_hundred] at this
        rw [h1, max_eq_right (by norm_num : (0:ℚ) ≤ 100), roundTenth_hundred,
          min_eq_left h3]
        norm_num
  · norm_num [computeSCPI, monastirakiMetrics, roundTenth, jsRound]

/-- Claim C2: for metrics with all four 0–100 inputs in range and the
feasibility score in [0,1], computeSCPI returns a value in [0,100] whose
tenfold is an integer, i.e. a value with one decimal digit of precision. -/
theorem computeSCPI_range_precision (m : Metrics)
    (ha : 0 ≤ m.LST) (hb : m.LST ≤ 100)
    (hc : 0 ≤ m.NDVI) (hd : m.NDVI ≤ 100)
    (he : 0 ≤ m.PopulationDensity) (hf : m.PopulationDensity ≤ 100)
    (hg : 0 ≤ m.CCS) (hh : m.CCS ≤ 100)
    (hi : 0 ≤ m.FeasibilityScore) (hj : m.FeasibilityScore ≤ 1) :
    0 ≤ computeSCPI m ∧ computeSCPI m ≤ 100 ∧
      ∃ z : ℤ, (z : ℚ) = computeSCPI m * 10 := by
  simp only [computeSCPI]
  set y := roundTenth ((0.4 * m.LST + 0.3 * (100 - m.NDVI) +
    0.2 * m.PopulationDensity + 0.1 * m.CCS) * m.FeasibilityScore) with hy
  refine ⟨le_max_left 0 _, max_le (by norm_num) (min_le_left _ _), ?_⟩
  rcases le_total y 0 with h0 | h0
  · refine ⟨0, ?_⟩
    rw [min_eq_right (by linarith : y ≤ (100:ℚ)), max_eq_left h0]
    norm_num
  · rcases le_total y 100 with h1 | h1
    · refine ⟨jsRound ((0.4 * m.LST + 0.3 * (100 - m.NDVI) +
        0.2 * m.PopulationDensity + 0.1 * m.CCS) * m.FeasibilityScore * 10), ?_⟩
      rw [min_eq_right h1, max_eq_right h0, hy, roundTenth]
      field_simp
    · refine ⟨1000, ?_⟩
      rw [min_eq_left h1, max_eq_right (by norm_num : (0:ℚ) ≤ 100)]
      norm_num

/-- Witness for claim C2 at concrete in-range metrics. -/
theorem computeSCPI_range_precision_witness :
    0 ≤ computeSCPI ⟨50, 50, 50, 50, 1, 50⟩ ∧
      computeSCPI ⟨50, 50, 50, 50, 1, 50⟩ ≤ 100 ∧
      ∃ z : ℤ, (z : ℚ) = computeSCPI ⟨50, 50, 50, 50, 1, 50⟩ * 10 :=
  computeSCPI_range_precision ⟨50, 50, 50, 50, 1, 50⟩ (by decide) (by decide)
    (by decide) (by decide) (by decide) (by decide) (by decide) (by decide)
    (by decide) (by decide)

/-- Claim C3: the report delta is +2 for high, +1 for medium, and +0.1 for
low and for every other or absent intensity, and the result is the current
cooling score plus the delta clamped to [0,100]; in particular 85 with
high gives 87, 99.5 with high clamps to 100, and 0 with low gives 0.1. -/
theorem applyReportDelta_mapping :
    (∀ c : ℚ, applyReportDelta c (some "high") = max 0 (min 100 (c + 2))) ∧
    (∀ c : ℚ, applyReportDelta c (some "medium") = max 0 (min 100 (c + 1))) ∧
    (∀ (c : ℚ) (i : Option String), i ≠ some "high" → i ≠ some "medium" →
      applyReportDelta c i = max 0 (min 100 (c + 0.1))) ∧
    applyReportDelta 85 (some "high") = 87 ∧
    applyReportDelta 99.5 (some "high") = 100 ∧
    applyReportDelta 0 (some "low") = 0.1 := by
  refine ⟨?_, ?_, ?_, ?_, ?_, ?_⟩
  · intro c; simp [applyReportDelta, reportDelta]
  · intro c; simp [applyReportDelta, reportDelta]
  · intro c i hhi hmed; simp [applyReportDelta, reportDelta, hhi, hmed]
  · simp [applyReportDelta, reportDelta]; norm_num
  · simp [applyReportDelta, reportDelta]; norm_num
  · simp [applyReportDelta, reportDelta]; norm_num

/-- Witness for claim C3 at an absent intensity. -/
theorem applyReportDelta_mapping_witness :
    applyReportDelta 50 none = max 0 (min 100 (50 + 0.1)) :=
  applyReportDelta_mapping.2.2.1 50 none (by decide) (by decide)

/-- Claim C4: recording a medium report for Monastiraki on the fixture
store raises exactly that record's CCS by exactly 1, stores the score
recomputed from the updated metrics as its new s_cpi, and leaves every
other field of that record and every other record unchanged. -/
theorem recordReport_monastiraki_effect :
    ((recordReport LOCATIONS "Monastiraki" (some "medium")).head?.map
        (fun l => l.metrics.CCS) =
      LOCATIONS.head?.map (fun l => l.metrics.CCS + 1)) ∧
    ((recordReport LOCATIONS "Monastiraki" (some "medium")).head?.map
        (fun l => l.s_cpi) =
      (recordReport LOCATIONS "Monastiraki" (some "medium")).head?.map
        (fun l => computeSCPI l.metrics)) ∧
    ((recordReport LOCATIONS "Monastiraki" (some "medium")).head?.map
        (fun l => (l.id, l.name, l.coords, l.info, l.metrics.LST,
          l.metrics.NDVI, l.metrics.PopulationDensity,
          l.metrics.FeasibilityScore, l.metrics.AirQuality)) =
      LOCATIONS.head?.map
        (fun l => (l.id, l.name, l.coords, l.info, l.metrics.LST,
          l.metrics.NDVI, l.metrics.PopulationDensity,
          l.metrics.FeasibilityScore, l.metrics.AirQuality))) ∧
    (recordReport LOCATIONS "Monastiraki" (some "medium")).drop 1 =
      LOCATIONS.drop 1 := by
  refine ⟨?_, rfl, rfl, rfl⟩
  show some (applyReportDelta 85 (some "medium")) = some ((85 : ℚ) + 1)
  simp [applyReportDelta, reportDelta]
  norm_num

/-- Claim C5: the derived score is never stale: the fixture store
satisfies the invariant that every s_cpi equals computeSCPI of the current
metrics, and every recordReport preserves that invariant. -/
theorem priorityIndex_never_stale :
    storeInv LOCATIONS ∧
    ∀ (store : List Location) (name : String) (i : Option String),
      storeInv store → storeInv (recordReport store name i) := by
  constructor
  · intro l hl
    rcases List.mem_map.1 hl with ⟨r, _, rfl⟩
    rfl
  · intro store name i hinv
    unfold recordReport
    rcases hidx : resolveReportIdx store name with _ | idx
    · exact hinv
    · intro l hl
      rcases mem_updateAt store idx l hl with h | ⟨y, _, rfl⟩
      · exact hinv l h
      · rfl

/-- Witness for claim C5: the invariant after a concrete report. -/
theorem priorityIndex_never_stale_witness :
    storeInv (recordReport LOCATIONS "Monastiraki" (some "high")) :=
  priorityIndex_never_stale.2 LOCATIONS "Monastiraki" (some "high")
    priorityIndex_never_stale.1

/-- Claim C6 counterexample: the resolver does not prefer a
case-insensitive exact name match over an earlier substring match. The
query names acropolisLoc exactly, yet the record returned is athensLoc,
which merely occurs earlier and matches by substring containment. -/
theorem findLocationFromName_exact_not_preferred :
    lowerStr acropolisLoc.name = lowerStr "Acropolis of Athens" ∧
    findLocationFromName [athensLoc, acropolisLoc]
      (some "Acropolis of Athens") = some athensLoc ∧
    athensLoc ≠ acropolisLoc := by decide

/-- Claim C6 as amended: for a non-empty query the resolver returns at
most one record, namely the first in list order matching the lowercased
query exactly or by substring containment in either direction; it returns
no match, not an error, exactly when no record qualifies; and a record
whose name equals the query case-insensitively is returned whenever no
earlier record matches. -/
theorem findLocationFromName_first_match (locs : List Location) (q : String)
    (hq : q ≠ "") :
    (findLocationFromName locs (some q) = none ↔
      ∀ l ∈ locs, fuzzyMatches q l = false) ∧
    (∀ l, findLocationFromName locs (some q) = some l →
      fuzzyMatches q l = true ∧
      ∃ pre suf, locs = pre ++ l :: suf ∧ ∀ y ∈ pre, fuzzyMatches q y = false) ∧
    (∀ pre l suf, locs = pre ++ l :: suf → lowerStr l.name = lowerStr q →
      (∀ y ∈ pre, fuzzyMatches q y = false) →
      findLocationFromName locs (some q) = some l) := by
  have hdef : findLocationFromName locs (some q) = locs.find? (fuzzyMatches q) := by
    simp [findLocationFromName, hq]
  refine ⟨?_, ?_, ?_⟩
  · rw [hdef, List.find?_eq_none]
    constructor
    · intro h l hl; simpa using h l hl
    · intro h l hl; simp [h l hl]
  · intro l hl
    rw [hdef] at hl
    exact find?_some_split locs l hl
  · intro pre l suf hsplit hname hpre
    rw [hdef, hsplit]
    exact find?_first pre suf l hpre (by simp [fuzzyMatches, hname])

/-- Witness for the amended claim C6: a query matching nothing resolves
to no match. -/
theorem findLocationFromName_first_match_witness :
    findLocationFromName [athensLoc] (some "zzz") = none :=
  (findLocationFromName_first_match [athensLoc] "zzz" (by decide)).1.mpr
    (by decide)

/-- Claim C7: a report whose name resolves to no record, neither exactly
nor case-insensitively, leaves the store exactly unchanged. -/
theorem recordReport_unresolved_noop (store : List Location) (name : String)
    (i : Option String)
    (h : ∀ l ∈ store, l.name ≠ name ∧ lowerStr l.name ≠ lowerStr name) :
    recordReport store name i = store := by
  have h1 : store.findIdx? (fun l => l.name == name) = none := by
    rw [List.findIdx?_eq_none_iff]
    intro l hl
    simpa using (h l hl).1
  have h2 : store.findIdx? (fun l => lowerStr l.name == lowerStr name) = none := by
    rw [List.findIdx?_eq_none_iff]
    intro l hl
    simpa using (h l hl).2
  unfold recordReport resolveReportIdx
  rw [h1, h2]

/-- Witness for claim C7: a report naming a place outside the fixture
set is a no-op on the fixture store. -/
theorem recordReport_unresolved_noop_witness :
    recordReport LOCATIONS "Omonia Square" (some "high") = LOCATIONS :=
  recordReport_unresolved_noop LOCATIONS "Omonia Square" (some "high")
    (by decide)

/-- Claim C8: the locations listing returns a permutation of the store
in which every adjacent pair is non-increasing in s_cpi, and records of
equal s_cpi appear exactly in store order (stable descending sort). -/
theorem locations_sorted_stable (store : List Location) :
    List.Perm (sortByCpiDesc store) store ∧
    List.Chain' (fun a b => b.s_cpi ≤ a.s_cpi) (sortByCpiDesc store) ∧
    ∀ k : ℚ, (sortByCpiDesc store).filter (fun l => decide (l.s_cpi = k)) =
      store.filter (fun l => decide (l.s_cpi = k)) :=
  ⟨sortByCpiDesc_perm store, (sortByCpiDesc_pairwise store).chain',
    fun k => sortByCpiDesc_filter k store⟩

/-- Claim C9: when the outbound completion call fails, the chat handler
answers HTTP 500 with the fixed fallback body (apology, null place, report
type none, null intensity) and the store is exactly unchanged. -/
theorem chatHandler_failure_fallback (store : List Location) :
    (chatHandler store .failure).1 = 500 ∧
    (chatHandler store .failure).2.1 =
      ⟨FALLBACK_REPLY, none, some "none", none⟩ ∧
    (chatHandler store .failure).2.2 = store :=
  ⟨rfl, rfl, rfl⟩

/-- Claim C10: for a current cooling score in [0,100] and any intensity,
recognized or not, a report never lowers the cooling score. -/
theorem applyReportDelta_monotone (c : ℚ) (i : Option String)
    (h0 : 0 ≤ c) (h1 : c ≤ 100) : c ≤ applyReportDelta c i := by
  have hd : (0:ℚ) < reportDelta i := by
    unfold reportDelta
    split_ifs <;> norm_num
  unfold applyReportDelta
  exact le_max_of_le_right (le_min h1 (by linarith))

/-- Witness for claim C10 at a concrete score and intensity. -/
theorem applyReportDelta_monotone_witness :
    (85 : ℚ) ≤ applyReportDelta 85 (some "high") :=
  applyReportDelta_monotone 85 (some "high") (by decide) (by decide)

end GreenCode
